import Mathlib

/-!
# OxideTerm Agent RPC Transport and Deployment Layer — verification

A shallow embedding, in Lean 4, of the agent transport and deployer of the
OxideTerm repository:

* `src-tauri/src/agent/transport.rs` — `AgentTransport` (JSON-RPC over an
  SSH exec channel): the pending-request map, the combined IO task's read
  loop, `call_with_timeout`, `take_watch_rx`, and termination draining.
* `src-tauri/src/agent/deploy.rs` — `AgentDeployer::deploy_and_start`:
  architecture detection, binary resolution, the version-probe upload
  decision (`needs_upload`), the conditional upload sequence, agent start
  and the `sys/ping` / `sys/info` handshake.
* `src/agent/src/protocol.rs` — the wire protocol data shapes.

Stateful Rust is modelled by explicit state passing on `TransportState`;
the external collaborators (SSH channel events, tokio timers, serde
outcomes, remote command results) are modelled as explicit inputs.
Machine integers (`u64` ids, `u32` pids, `i32` error codes) cannot
overflow in any behaviour the claims touch, so they are modelled as
`Nat` / `Int`.
-/

/-! ## Wire protocol data model (src/agent/src/protocol.rs) -/

/-- Minimal model of `serde_json::Value`. -/
inductive Json where
  | null
  | bool (b : Bool)
  | num (n : Int)
  | str (s : String)
  | arr (xs : List Json)
  | obj (fields : List (String × Json))

/-- `RpcError` / `AgentRpcError`: JSON-RPC error object `{code, message}`. -/
structure AgentRpcError where
  code : Int
  message : String
deriving DecidableEq

/-- `ERR_INTERNAL` error code from `protocol.rs`. -/
def ERR_INTERNAL : Int := -32603

/-- A response line: `{id, result?, error?}` (client-side `AgentResponse`). -/
structure AgentResponse where
  id : Nat
  result : Option Json
  error : Option AgentRpcError

/-- A notification line: `{method, params}` with no `id`. -/
structure AgentNotification where
  method : String
  params : Json

/-- Classification of a parsed line (client-side `AgentMessage`). -/
inductive AgentMessage where
  | response (r : AgentResponse)
  | notification (n : AgentNotification)

/-- `WatchEvent` notification payload `{path, kind}`. -/
structure WatchEvent where
  path : String
  kind : String
deriving DecidableEq

/-- `SysInfoResult` — the agent identity `{version, arch, os, pid}`. -/
structure SysInfoResult where
  version : String
  arch : String
  os : String
  pid : Nat
deriving DecidableEq

/-- The result a pending call is completed with:
`Result<serde_json::Value, AgentRpcError>`. -/
abbrev RpcResult := Except AgentRpcError Json

/-- `TransportError` from `transport.rs`. -/
inductive TransportError where
  | NotConnected
  | ChannelClosed
  | Timeout (secs : Nat)
  | SerializeError (msg : String)
  | DeserializeError (msg : String)
  | RpcError (e : AgentRpcError)
  | SshError (msg : String)

/-- `Display` messages of `TransportError` (the `thiserror` strings),
used where `deploy.rs` formats a transport error into a message. -/
def TransportError.toMsg : TransportError → String
  | .NotConnected => "Agent not connected"
  | .ChannelClosed => "Agent channel closed"
  | .Timeout s => "RPC timeout after " ++ toString s ++ "s"
  | .SerializeError m => "Failed to serialize request: " ++ m
  | .DeserializeError m => "Failed to deserialize response: " ++ m
  | .RpcError e => "Agent RPC error: " ++ e.message
  | .SshError m => "SSH error: " ++ m

/-! ## JSON field access (serde `from_value` for the payload structs) -/

/-- Look up a field of a JSON object (serde: field by name). -/
def Json.getField (j : Json) (key : String) : Option Json :=
  match j with
  | .obj fields => (fields.find? (fun f => f.1 = key)).map (·.2)
  | _ => none

/-- Extract a JSON string (serde: `String` field). -/
def Json.asStr : Json → Option String
  | .str s => some s
  | _ => none

/-- Extract a `u32` (serde: nonnegative integer below `2^32`). -/
def Json.asU32 : Json → Option Nat
  | .num n => if 0 ≤ n ∧ n < 4294967296 then some n.toNat else none
  | _ => none

/-- serde deserialization of `WatchEvent` from `notif.params`
(`serde_json::from_value::<WatchEvent>`): both `path` and `kind` are
required strings; unknown fields are ignored. -/
def parseWatchEvent (j : Json) : Option WatchEvent := do
  let p ← (← j.getField "path").asStr
  let k ← (← j.getField "kind").asStr
  pure ⟨p, k⟩

/-- serde deserialization of `SysInfoResult`
(`serde_json::from_value::<SysInfoResult>` in `AgentDeployer::handshake`):
`version`, `arch`, `os` are required strings, `pid` a required `u32`. -/
def fromJsonSysInfo (j : Json) : Option SysInfoResult := do
  let v ← (← j.getField "version").asStr
  let a ← (← j.getField "arch").asStr
  let o ← (← j.getField "os").asStr
  let p ← (← j.getField "pid").asU32
  pure ⟨v, a, o, p⟩

/-! ## Transport state

`AgentTransport` owns: the pending map (request id → oneshot sender), the
`alive` flag, the bounded watch-event channel (capacity 1024) whose
receiver sits in `watch_rx` until `take_watch_rx` hands it out, the
`watch_taken` flag, and the bounded outgoing queue (capacity 256).

Oneshot senders are identified by a slot number (`nextSlot` counter);
fulfilling a slot appends `(slot, result)` to `resolved`, the history of
completions — each real oneshot can be fulfilled at most once, which the
theorems establish as: no slot is ever appended twice. -/

/-- State of one `AgentTransport` together with its IO task. -/
structure TransportState where
  /-- `pending`: request id → completion slot (`HashMap<u64, oneshot::Sender>`).
  Modelled as an association list; the map structure makes keys unique,
  which theorems carry as a `Nodup` hypothesis on the key list. -/
  pending : List (Nat × Nat)
  /-- `alive` atomic flag. -/
  alive : Bool
  /-- Next request id. Modelled from the spec: `next_request_id()` lives in
  the (not included) client-side `protocol.rs`; per §9 of the spec it is a
  bare monotonic atomic counter, modelled here as a per-state counter. -/
  nextId : Nat
  /-- Fresh oneshot-slot counter (identity of `oneshot::channel()` pairs). -/
  nextSlot : Nat
  /-- Outgoing queue contents (`write_tx` / `write_rx`, capacity 256). -/
  outgoing : List String
  /-- Whether the writer side is accepting (`write_rx` not dropped). -/
  writerOpen : Bool
  /-- Buffered watch events in the `mpsc::channel::<WatchEvent>(1024)`.
  The sender suspends when 1024 events are buffered and completes the send
  once space frees; it never drops, so the content semantics is append. -/
  watchQueue : List WatchEvent
  /-- `watch_taken` atomic flag. -/
  watchTaken : Bool
  /-- Completion history: `(slot, result)` for every fulfilled oneshot. -/
  resolved : List (Nat × RpcResult)
  /-- Partial line buffer of the read loop. -/
  buffer : List Char

/-- A fresh transport as built by `AgentTransport::new` (empty pending map,
alive, watch receiver not yet taken, empty queues). -/
def TransportState.initial : TransportState :=
  { pending := [], alive := true, nextId := 0, nextSlot := 0,
    outgoing := [], writerOpen := true, watchQueue := [],
    watchTaken := false, resolved := [], buffer := [] }

/-! ## Read loop: line handling (`AgentTransport::new`, IO task) -/

/-- The completion value for a response:
`if let Some(err) = resp.error { Err(err) } else { Ok(resp.result.unwrap_or_default()) }`. -/
def responseResult (resp : AgentResponse) : RpcResult :=
  match resp.error with
  | some err => .error err
  | none => .ok (resp.result.getD Json.null)

/-- Handling `AgentMessage::Response`: `pending.remove(&resp.id)`; when an
entry exists its slot is fulfilled with the response's result or error;
otherwise the response is logged ("Response for unknown id") and dropped. -/
def handleResponse (st : TransportState) (resp : AgentResponse) : TransportState :=
  match st.pending.find? (fun e => e.1 = resp.id) with
  | some e =>
      { st with
        pending := st.pending.filter (fun q => ¬ q.1 = resp.id),
        resolved := st.resolved ++ [(e.2, responseResult resp)] }
  | none => st

/-- `watch_tx_r.send(event).await` into the capacity-1024 channel: the
sender suspends (never drops) when full, so the delivered content is an
append onto the buffered queue. -/
def sendWatch (st : TransportState) (ev : WatchEvent) : TransportState :=
  { st with watchQueue := st.watchQueue ++ [ev] }

/-- Handling `AgentMessage::Notification`: a `watch/event` notification
whose params deserialize as `WatchEvent` is forwarded into the watch
channel; any other notification, or an undecodable payload, is logged and
dropped. -/
def handleNotification (st : TransportState) (n : AgentNotification) : TransportState :=
  if n.method = "watch/event" then
    match parseWatchEvent n.params with
    | some ev => sendWatch st ev
    | none => st
  else st

/-- One complete, nonempty, trimmed line of stdout, classified by
`serde_json::from_str::<AgentMessage>` — the serde parse outcome is the
`parse` parameter (serde is an external library). A line that fails to
parse is logged ("Non-JSON line") and skipped. -/
def handleLine (parse : String → Option AgentMessage)
    (st : TransportState) (line : String) : TransportState :=
  match parse line with
  | some (.response r) => handleResponse st r
  | some (.notification n) => handleNotification st n
  | none => st

/-! ## Read loop: buffering and chunk processing -/

/-- Split a byte buffer at newline characters: the complete lines (one per
`'\n'`, in order) and the trailing partial line kept as the new buffer.
This is the net effect of the Rust loop
`while let Some(pos) = buffer.find('\n') { ... }`. -/
def splitBuf : List Char → List (List Char) × List Char
  | [] => ([], [])
  | c :: rest =>
      let (ls, b) := splitBuf rest
      if c = '\n' then ((List.nil :: ls), b)
      else
        match ls with
        | [] => ([], c :: b)
        | l :: ls2 => ((c :: l) :: ls2, b)

/-- `str::trim` — strip leading and trailing whitespace. -/
def trimChars (s : List Char) : List Char :=
  ((s.dropWhile Char.isWhitespace).reverse.dropWhile Char.isWhitespace).reverse

/-- `str::trim` on strings. -/
def strTrim (s : String) : String := ⟨trimChars s.data⟩

/-- Handling one `ChannelMsg::Data` chunk: append to the buffer, extract
every complete line, trim it, skip empty lines, and handle the rest. -/
def processData (parse : String → Option AgentMessage)
    (st : TransportState) (chunk : String) : TransportState :=
  let (lines, rest) := splitBuf (st.buffer ++ chunk.data)
  let handled := (lines.map (fun l => strTrim ⟨l⟩)).filter (fun l => ¬ l = "")
  { (handled.foldl (handleLine parse) { st with buffer := [] }) with buffer := rest }

/-! ## IO-task event loop (`tokio::select!` in `AgentTransport::new`) -/

/-- `russh::ChannelMsg` events the read side reacts to. `chanEnd` models
`channel.wait()` returning `None`. -/
inductive ChanEvent where
  | data (chunk : String)
  | extendedData (chunk : String)
  | exitStatus (code : Nat)
  | eof
  | close
  | chanEnd
  | other

/-- One event source firing in the `tokio::select!` of the IO task:
an outgoing line from `write_rx` (with the success of `channel.data`),
a channel message, or the shutdown signal. -/
inductive LoopEvent where
  | write (line : String) (ok : Bool)
  | chan (m : ChanEvent)
  | shutdown

/-- One iteration of the IO task's loop: the resulting state and whether
the loop continues (`true`) or breaks (`false`). A `write` whose
`channel.data` fails breaks; `ExitStatus`, `Eof`, `Close`, a closed
channel and the shutdown signal break; `Data`, `ExtendedData` (stderr,
logged only) and other channel messages continue. -/
def ioStep (parse : String → Option AgentMessage)
    (st : TransportState) (ev : LoopEvent) : TransportState × Bool :=
  match ev with
  | .write _ ok => if ok then (st, true) else (st, false)
  | .chan (.data chunk) => (processData parse st chunk, true)
  | .chan (.extendedData _) => (st, true)
  | .chan (.exitStatus _) => (st, false)
  | .chan .eof => (st, false)
  | .chan .close => (st, false)
  | .chan .chanEnd => (st, false)
  | .chan .other => (st, true)
  | .shutdown => (st, false)

/-- The error every drained pending call is failed with on termination. -/
def chanClosedErr : AgentRpcError := ⟨ERR_INTERNAL, "Agent channel closed"⟩

/-- After the loop breaks: `alive_r.store(false)` and then
`pending.drain()` — every pending slot is fulfilled with the
channel-closed RPC error. -/
def terminate (st : TransportState) : TransportState :=
  { st with
    alive := false,
    resolved := st.resolved ++ st.pending.map (fun e => (e.2, Except.error chanClosedErr)),
    pending := [] }

/-! ## Outgoing path: `call_with_timeout` -/

/-- Outcome of the registration/send phase of `call_with_timeout`. -/
inductive CallStart where
  | failed (e : TransportError)
  | registered (id slot : Nat)

/-- The registration/send phase of `call_with_timeout`, up to the await:
fail with `NotConnected` when not alive (before allocating an id);
allocate the id; serialize (the serde outcome is the `ser` input: the
serialized line or the error message); on serialize failure return
`SerializeError` (no pending entry, nothing enqueued); otherwise register
the oneshot slot in the pending map and hand the line to the writer task,
failing with `ChannelClosed` if the writer is gone. -/
def callStart (st : TransportState) (ser : Except String String) :
    TransportState × CallStart :=
  if st.alive = false then (st, .failed .NotConnected)
  else
    let id := st.nextId
    match ser with
    | .error e => ({ st with nextId := id + 1 }, .failed (.SerializeError e))
    | .ok json =>
        let slot := st.nextSlot
        let st1 := { st with
          nextId := id + 1, nextSlot := slot + 1,
          pending := st.pending ++ [(id, slot)] }
        if st.writerOpen then
          ({ st1 with outgoing := st1.outgoing ++ [json] }, .registered id slot)
        else (st1, .failed .ChannelClosed)

/-- What `rx` (wrapped in `tokio::time::timeout`) produced. -/
inductive AwaitOutcome where
  | completed (r : RpcResult)
  | senderDropped
  | timedOut

/-- `tokio::time::timeout(Duration::from_secs(T), rx)`: if the oneshot is
fulfilled with `r` at time `t < T` the value is returned at time `t`;
otherwise the timer fires and the await returns the timeout error at time
`T`. `arrival = none` models a channel that never delivers a response for
this call's id. Returns the outcome and the elapsed time at return. -/
def awaitWithTimeout (T : Nat) (arrival : Option (Nat × RpcResult)) :
    AwaitOutcome × Nat :=
  match arrival with
  | some (t, r) => if t < T then (.completed r, t) else (.timedOut, T)
  | none => (.timedOut, T)

/-- The completion phase of `call_with_timeout` (the `match` on the awaited
value): a delivered `Ok` is the call's result, a delivered RPC error maps
to `RpcError`, a dropped sender to `ChannelClosed`, and on timeout the
caller removes its own pending entry and returns `Timeout(timeout_secs)`. -/
def finishCall (st : TransportState) (id : Nat) (timeoutSecs : Nat)
    (a : AwaitOutcome) : TransportState × Except TransportError Json :=
  match a with
  | .completed (.ok v) => (st, .ok v)
  | .completed (.error e) => (st, .error (.RpcError e))
  | .senderDropped => (st, .error .ChannelClosed)
  | .timedOut =>
      ({ st with pending := st.pending.filter (fun q => ¬ q.1 = id) },
       .error (.Timeout timeoutSecs))

/-! ## `take_watch_rx` -/

/-- `AgentTransport::take_watch_rx`: under the `watch_rx` mutex, swap the
`watch_taken` flag; if it was already set return `None`, otherwise hand
out the receiver of the watch channel. The returned payload is the
backlog of events already buffered, which the consumer (now owning the
read end) observes first, ahead of any later events. -/
def takeWatchRx (st : TransportState) :
    TransportState × Option (List WatchEvent) :=
  if st.watchTaken then (st, none)
  else ({ st with watchTaken := true }, some st.watchQueue)

/-- The operations that can act on a transport's state, for stating
invariants under arbitrary interleavings of callers. -/
inductive TOp where
  | resp (r : AgentResponse)
  | notif (n : AgentNotification)
  | startCall (ser : Except String String)
  | finish (id timeoutSecs : Nat) (a : AwaitOutcome)
  | term
  | takeRx

/-- Apply one transport operation (discarding its output). -/
def applyTOp (st : TransportState) : TOp → TransportState
  | .resp r => handleResponse st r
  | .notif n => handleNotification st n
  | .startCall ser => (callStart st ser).1
  | .finish id t a => (finishCall st id t a).1
  | .term => terminate st
  | .takeRx => (takeWatchRx st).1

/-! ## Deployer (src-tauri/src/agent/deploy.rs) -/

/-- `str::contains` — `needle` occurs as a contiguous substring. -/
def prefixMatch : List Char → List Char → Bool
  | [], _ => true
  | _ :: _, [] => false
  | a :: as, b :: bs => a = b && prefixMatch as bs

/-- Substring occurrence of `needle` in `hay` (`str::contains` semantics). -/
def containsSeq (hay needle : List Char) : Bool :=
  match hay with
  | [] => prefixMatch needle []
  | _ :: t => prefixMatch needle hay || containsSeq t needle

/-- `str::contains` on strings. -/
def strContains (hay needle : String) : Bool := containsSeq hay.data needle.data

/-- `DeployError` from `deploy.rs`. -/
inductive DeployError where
  | ArchDetection (msg : String)
  | UnsupportedArch (arch : String)
  | BinaryNotFound (msg : String)
  | LocalIo (msg : String)
  | Upload (msg : String)
  | ExecFailed (msg : String)
  | StartFailed (msg : String)
  | Handshake (msg : String)
deriving DecidableEq

/-- `AGENT_REMOTE_DIR` constant. -/
def AGENT_REMOTE_DIR : String := ".oxideterm"

/-- `AGENT_BINARY_NAME` constant. -/
def AGENT_BINARY_NAME : String := "oxideterm-agent"

/-- The remote directory `~/{AGENT_REMOTE_DIR}`. -/
def remoteDir : String := "~/" ++ AGENT_REMOTE_DIR

/-- The remote path `{remote_dir}/{AGENT_BINARY_NAME}`. -/
def remotePath : String := remoteDir ++ "/" ++ AGENT_BINARY_NAME

/-- `AgentDeployer::arch_to_target` — map `uname -m` output to the binary
suffix; anything outside the recognized set is `UnsupportedArch`. -/
def archToTarget (arch : String) : Except DeployError String :=
  if arch = "x86_64" ∨ arch = "amd64" then .ok "x86_64-linux-musl"
  else if arch = "aarch64" ∨ arch = "arm64" then .ok "aarch64-linux-musl"
  else .error (.UnsupportedArch arch)

/-- `AgentDeployer::needs_upload` — decide from the version probe
(`{remote_path} --version 2>/dev/null || echo NOT_FOUND`, a remote exec
whose trimmed stdout or failure is the `probe` input): a failed probe
uploads; stdout containing `NOT_FOUND` or empty uploads; stdout containing
the local `AGENT_VERSION` as a substring skips; anything else uploads. -/
def needsUpload (probe : Except String String) (version : String) : Bool :=
  match probe with
  | .error _ => true
  | .ok stdout =>
      let output := strTrim stdout
      if strContains output "NOT_FOUND" || output = "" then true
      else if strContains output version then false
      else true

/-- Externally observable outcomes of the collaborators `deploy_and_start`
drives: remote execs, the Tauri resource resolver, local file IO, SFTP,
transport construction and the handshake RPCs. -/
structure DeployEnv where
  /-- stdout of `uname -m`, or the exec error. -/
  uname : Except String String
  /-- Tauri resource resolution of the bundled binary name. -/
  resourceResolve : Except String String
  /-- `resource_path.exists()`. -/
  resourceExists : Bool
  /-- Trimmed-ready stdout of the version probe, or its exec error. -/
  probe : Except String String
  /-- `mkdir -p` exec outcome (stdout; non-zero exit only warns). -/
  mkdirRes : Except String String
  /-- `tokio::fs::read` of the local binary. -/
  readLocal : Except String (List Nat)
  /-- `sftp.write_content` outcome. -/
  uploadRes : Except String Unit
  /-- `chmod +x` exec outcome. -/
  chmodRes : Except String String
  /-- `AgentTransport::new` on the fresh exec channel. -/
  startRes : Except String Unit
  /-- `sys/ping` call outcome. -/
  pingRes : Except TransportError Json
  /-- `sys/info` call outcome. -/
  infoRes : Except TransportError Json

/-- Externally visible operations issued by `deploy_and_start`, in order. -/
inductive DeployOp where
  | detectArch
  | resolveBinary (resource : String)
  | versionProbe (path : String)
  | mkdir (dir : String)
  | readLocalBinary
  | upload (path : String) (bytes : List Nat)
  | chmod (path : String)
  | startAgent (path : String)
  | rpcCall (method : String)
deriving DecidableEq

/-- Step 5 of `deploy_and_start` (the `needs_upload` branch): `mkdir -p`,
read the local binary, SFTP upload, `chmod +x`; each failure aborts with
its `DeployError`. Returns the issued operations and the outcome. -/
def uploadPhase (env : DeployEnv) : List DeployOp × Except DeployError Unit :=
  match env.mkdirRes with
  | .error e => ([.mkdir remoteDir], .error (.ExecFailed e))
  | .ok _ =>
      match env.readLocal with
      | .error e => ([.mkdir remoteDir, .readLocalBinary], .error (.LocalIo e))
      | .ok bytes =>
          match env.uploadRes with
          | .error e =>
              ([.mkdir remoteDir, .readLocalBinary, .upload remotePath bytes],
               .error (.Upload e))
          | .ok _ =>
              match env.chmodRes with
              | .error e =>
                  ([.mkdir remoteDir, .readLocalBinary, .upload remotePath bytes,
                    .chmod remotePath], .error (.ExecFailed e))
              | .ok _ =>
                  ([.mkdir remoteDir, .readLocalBinary, .upload remotePath bytes,
                    .chmod remotePath], .ok ())

/-- Steps 6–7 of `deploy_and_start`: start the agent over a fresh exec
channel, then the handshake — a 10s `sys/ping`, a 10s `sys/info`, and
serde deserialization of the `sys/info` result into `SysInfoResult`. -/
def startPhase (env : DeployEnv) : List DeployOp × Except DeployError SysInfoResult :=
  match env.startRes with
  | .error e => ([.startAgent remotePath], .error (.StartFailed e))
  | .ok _ =>
      match env.pingRes with
      | .error e =>
          ([.startAgent remotePath, .rpcCall "sys/ping"],
           .error (.Handshake ("Ping failed: " ++ e.toMsg)))
      | .ok _ =>
          match env.infoRes with
          | .error e =>
              ([.startAgent remotePath, .rpcCall "sys/ping", .rpcCall "sys/info"],
               .error (.Handshake ("sys/info failed: " ++ e.toMsg)))
          | .ok v =>
              match fromJsonSysInfo v with
              | none =>
                  ([.startAgent remotePath, .rpcCall "sys/ping", .rpcCall "sys/info"],
                   .error (.Handshake "Invalid sys/info response"))
              | some info =>
                  ([.startAgent remotePath, .rpcCall "sys/ping", .rpcCall "sys/info"],
                   .ok info)

/-- `AgentDeployer::deploy_and_start`: detect the architecture, resolve
the bundled binary, probe the deployed version, conditionally upload,
start the agent and run the handshake. Returns the operations issued, in
order, and the identity (or the first error). `version` is the local
`AGENT_VERSION` (the crate version, not part of the sources). -/
def deployAndStart (version : String) (env : DeployEnv) :
    List DeployOp × Except DeployError SysInfoResult :=
  match env.uname with
  | .error e => ([.detectArch], .error (.ArchDetection e))
  | .ok out =>
      let arch := strTrim out
      if arch = "" then
        ([.detectArch], .error (.ArchDetection "uname -m returned empty output"))
      else
        match archToTarget arch with
        | .error e => ([.detectArch], .error e)
        | .ok target =>
            let binName := "agents/oxideterm-agent-" ++ target
            match env.resourceResolve with
            | .error e =>
                ([.detectArch, .resolveBinary binName],
                 .error (.BinaryNotFound ("Resource " ++ binName ++ " not found: " ++ e)))
            | .ok localPath =>
                if env.resourceExists = false then
                  ([.detectArch, .resolveBinary binName],
                   .error (.BinaryNotFound ("Binary not found at " ++ localPath)))
                else
                  let tr0 := [.detectArch, .resolveBinary binName,
                              .versionProbe remotePath]
                  if needsUpload env.probe version then
                    let (upOps, upRes) := uploadPhase env
                    match upRes with
                    | .error e => (tr0 ++ upOps, .error e)
                    | .ok _ =>
                        let (stOps, stRes) := startPhase env
                        (tr0 ++ upOps ++ stOps, stRes)
                  else
                    let (stOps, stRes) := startPhase env
                    (tr0 ++ stOps, stRes)

/-! ## Helper lemmas -/

/-- In a pending map with pairwise-distinct keys, lookup of a registered
key finds exactly the registered entry. -/
theorem find_pending_eq (p : List (Nat × Nat)) (i s : Nat)
    (hnd : (p.map Prod.fst).Nodup) (hmem : (i, s) ∈ p) :
    p.find? (fun e => e.1 = i) = some (i, s) := by
  induction p with
  | nil => simp at hmem
  | cons a t ih =>
      rw [List.map_cons, List.nodup_cons] at hnd
      rcases List.mem_cons.mp hmem with rfl | h
      · simp [List.find?]
      · have hne : ¬ a.1 = i := by
          intro he
          exact hnd.1 (List.mem_map.mpr ⟨(i, s), h, by rw [he]⟩)
        rw [List.find?_cons_of_neg _ (by simp [hne])]
        exact ih hnd.2 h

/-- A list matches itself as a prefix. -/
theorem prefixMatch_self (l : List Char) : prefixMatch l l = true := by
  induction l with
  | nil => rfl
  | cons a t ih => simp [prefixMatch, ih]

/-- Every list contains itself as a substring. -/
theorem containsSeq_self (l : List Char) : containsSeq l l = true := by
  cases l with
  | nil => rfl
  | cons a t => simp [containsSeq, prefixMatch_self]

/-- Every string contains itself (`str::contains` reflexivity). -/
theorem strContains_self (s : String) : strContains s s = true :=
  containsSeq_self s.data

/-- A response whose id is not in the pending map changes nothing
(the "Response for unknown id" branch). -/
theorem handleResponse_of_find_none (st : TransportState) (r : AgentResponse)
    (h : st.pending.find? (fun e => e.1 = r.id) = none) :
    handleResponse st r = st := by
  simp [handleResponse, h]

/-! ## C1 — response completion -/

/-- C1: with pairwise-distinct pending ids, a received response with id
`i` removes exactly the pending entry keyed `i` and fulfils exactly the
slot registered under `i` with that response's result or error; every
other entry is untouched; and since the entry is removed before the slot
is fulfilled, a second response bearing the same id resolves nothing —
no pending entry is ever resolved more than once. -/
theorem response_completes_exactly_matching (st : TransportState)
    (resp : AgentResponse) (slot : Nat)
    (hnd : (st.pending.map Prod.fst).Nodup)
    (hmem : (resp.id, slot) ∈ st.pending) :
    (handleResponse st resp).pending
        = st.pending.filter (fun q => ¬ q.1 = resp.id) ∧
    (∀ s, ¬ (resp.id, s) ∈ (handleResponse st resp).pending) ∧
    (∀ j t, ¬ j = resp.id →
        ((j, t) ∈ (handleResponse st resp).pending ↔ (j, t) ∈ st.pending)) ∧
    (handleResponse st resp).resolved
        = st.resolved ++ [(slot, responseResult resp)] ∧
    (∀ resp2 : AgentResponse, resp2.id = resp.id →
        handleResponse (handleResponse st resp) resp2 = handleResponse st resp) := by
  have hfind := find_pending_eq st.pending resp.id slot hnd hmem
  have hst : handleResponse st resp =
      { st with
        pending := st.pending.filter (fun q => ¬ q.1 = resp.id),
        resolved := st.resolved ++ [(slot, responseResult resp)] } := by
    simp [handleResponse, hfind]
  refine ⟨by rw [hst], ?_, ?_, by rw [hst], ?_⟩
  · intro s hs
    rw [hst] at hs
    simp [List.mem_filter] at hs
  · intro j t hj
    rw [hst]
    simp [List.mem_filter, hj]
  · intro resp2 h2
    have hnone : (handleResponse st resp).pending.find?
        (fun e => e.1 = resp2.id) = none := by
      rw [List.find?_eq_none]
      intro x hx
      rw [hst] at hx
      simp [List.mem_filter] at hx
      simp [h2, hx.2]
    exact handleResponse_of_find_none _ _ hnone

/-- C1 witness: two concurrent pending calls with ids 1 and 2; the
response for id 1 completes exactly slot 10. -/
theorem response_completes_exactly_matching_witness :
    (handleResponse
        { TransportState.initial with pending := [(1, 10), (2, 11)] }
        ⟨1, some (Json.str "pong"), none⟩).pending
        = ([(1, 10), (2, 11)] : List (Nat × Nat)).filter (fun q => ¬ q.1 = (1 : Nat)) ∧
    (∀ s, ¬ ((1 : Nat), s) ∈ (handleResponse
        { TransportState.initial with pending := [(1, 10), (2, 11)] }
        ⟨1, some (Json.str "pong"), none⟩).pending) ∧
    (∀ j t, ¬ j = (1 : Nat) →
        ((j, t) ∈ (handleResponse
            { TransportState.initial with pending := [(1, 10), (2, 11)] }
            ⟨1, some (Json.str "pong"), none⟩).pending ↔
          (j, t) ∈ ([(1, 10), (2, 11)] : List (Nat × Nat)))) ∧
    (handleResponse
        { TransportState.initial with pending := [(1, 10), (2, 11)] }
        ⟨1, some (Json.str "pong"), none⟩).resolved
        = [] ++ [(10, responseResult ⟨1, some (Json.str "pong"), none⟩)] ∧
    (∀ resp2 : AgentResponse, resp2.id = 1 →
        handleResponse (handleResponse
            { TransportState.initial with pending := [(1, 10), (2, 11)] }
            ⟨1, some (Json.str "pong"), none⟩) resp2
          = handleResponse
            { TransportState.initial with pending := [(1, 10), (2, 11)] }
            ⟨1, some (Json.str "pong"), none⟩) :=
  response_completes_exactly_matching
    { TransportState.initial with pending := [(1, 10), (2, 11)] }
    ⟨1, some (Json.str "pong"), none⟩ 10 (by decide) (by decide)

/-! ## C4 — the upload decision -/

/-- C4 counterexample: the code's `needs_upload` uses a substring check
(`output.contains(AGENT_VERSION)`), not exact equality: a probe stdout of
`"oxideterm-agent 1.4.0"` against local version `"1.4.0"` skips the
upload although the stdout is not an exact match of the version. -/
theorem needsUpload_not_exact_match :
    needsUpload (Except.ok "oxideterm-agent 1.4.0") "1.4.0" = false ∧
    ¬ strTrim "oxideterm-agent 1.4.0" = "1.4.0" := by
  constructor
  · rfl
  · decide

/-- C4 amended: `needs_upload` decides to skip the upload exactly when
the probe succeeded and its trimmed stdout is nonempty, does not contain
`NOT_FOUND`, and contains the local agent version as a substring; empty
output, output not containing the version, and probe failure each lead
to upload. -/
theorem needsUpload_skip_iff (probe : Except String String) (version : String) :
    needsUpload probe version = false ↔
      ∃ s, probe = Except.ok s ∧ ¬ strTrim s = "" ∧
        strContains (strTrim s) "NOT_FOUND" = false ∧
        strContains (strTrim s) version = true := by
  cases probe with
  | error e => simp [needsUpload]
  | ok s =>
      simp only [needsUpload]
      constructor
      · intro h
        by_cases h1 : strContains (strTrim s) "NOT_FOUND" || strTrim s = ""
        · simp [h1] at h
        · by_cases h2 : strContains (strTrim s) version
          · have h1' := h1
            simp only [Bool.or_eq_true, decide_eq_true_eq] at h1'
            push_neg at h1'
            exact ⟨s, rfl, h1'.2, by simpa using h1'.1, h2⟩
          · simp [h1, h2] at h
      · rintro ⟨t, ht, hne, hnf, hv⟩
        injection ht with hst
        subst hst
        have h1 : (strContains (strTrim s) "NOT_FOUND" || decide (strTrim s = "")) = false := by
          simp [hnf, hne]
        simp [h1, hv]

/-! ## C2 — timeout path -/

/-- C2: a call issued on a live transport with timeout `T` over a channel
that never delivers a response for its id returns only at elapsed time
`≥ T` with the `Timeout(T)` error; at that moment the caller itself has
removed its id from the pending map, and a response bearing that id
arriving afterwards finds no pending entry and is discarded, completing
no call. -/
theorem timeout_cleanup_and_late_response_discarded
    (st : TransportState) (json : String) (T : Nat)
    (halive : st.alive = true) (hw : st.writerOpen = true) :
    (callStart st (Except.ok json)).2 = .registered st.nextId st.nextSlot ∧
    (awaitWithTimeout T none).2 ≥ T ∧
    (finishCall (callStart st (Except.ok json)).1 st.nextId T
        (awaitWithTimeout T none).1).2 = .error (.Timeout T) ∧
    (∀ s, ¬ (st.nextId, s) ∈
        (finishCall (callStart st (Except.ok json)).1 st.nextId T
          (awaitWithTimeout T none).1).1.pending) ∧
    (∀ resp : AgentResponse, resp.id = st.nextId →
        handleResponse
            (finishCall (callStart st (Except.ok json)).1 st.nextId T
              (awaitWithTimeout T none).1).1 resp
          = (finishCall (callStart st (Except.ok json)).1 st.nextId T
              (awaitWithTimeout T none).1).1) := by
  have hawait : awaitWithTimeout T none = (.timedOut, T) := rfl
  have hstart : callStart st (Except.ok json) =
      ({ st with
          nextId := st.nextId + 1
          nextSlot := st.nextSlot + 1
          pending := st.pending ++ [(st.nextId, st.nextSlot)]
          outgoing := st.outgoing ++ [json] }, .registered st.nextId st.nextSlot) := by
    simp [callStart, halive, hw]
  have hmem : ∀ s, ¬ (st.nextId, s) ∈
      (finishCall (callStart st (Except.ok json)).1 st.nextId T
        (awaitWithTimeout T none).1).1.pending := by
    intro s hs
    rw [hawait, hstart] at hs
    simp only [finishCall, List.mem_filter] at hs
    simp at hs
  refine ⟨by rw [hstart], by rw [hawait], by rw [hawait, hstart]; rfl, hmem, ?_⟩
  intro resp hid
  apply handleResponse_of_find_none
  rw [List.find?_eq_none]
  intro x hx
  simp only [hid, decide_eq_true_eq]
  intro hx1
  have hxx : x = (st.nextId, x.2) := by
    rw [← hx1]
  exact hmem x.2 (by rwa [← hxx])

/-- C2 witness: a fresh live transport, a call with timeout 30 that never
receives a response. -/
theorem timeout_cleanup_witness :
    (callStart TransportState.initial (Except.ok "{}")).2
        = .registered TransportState.initial.nextId TransportState.initial.nextSlot ∧
    (awaitWithTimeout 30 none).2 ≥ 30 ∧
    (finishCall (callStart TransportState.initial (Except.ok "{}")).1
        TransportState.initial.nextId 30 (awaitWithTimeout 30 none).1).2
        = .error (.Timeout 30) ∧
    (∀ s, ¬ (TransportState.initial.nextId, s) ∈
        (finishCall (callStart TransportState.initial (Except.ok "{}")).1
          TransportState.initial.nextId 30 (awaitWithTimeout 30 none).1).1.pending) ∧
    (∀ resp : AgentResponse, resp.id = TransportState.initial.nextId →
        handleResponse
            (finishCall (callStart TransportState.initial (Except.ok "{}")).1
              TransportState.initial.nextId 30 (awaitWithTimeout 30 none).1).1 resp
          = (finishCall (callStart TransportState.initial (Except.ok "{}")).1
              TransportState.initial.nextId 30 (awaitWithTimeout 30 none).1).1) :=
  timeout_cleanup_and_late_response_discarded TransportState.initial "{}" 30 rfl rfl

/-! ## C3 — channel close drains all pending calls; dead transport -/

/-- C3: on exit status, EOF, close, end of channel, or the shutdown
signal, the IO loop breaks; the termination path marks the transport dead
and resolves every one of the pending entries with the channel-closed
error, leaving the pending map empty; and a call invoked on a dead
transport fails immediately with `NotConnected`, with the state (id
counter, pending map, outgoing queue) untouched. -/
theorem channel_close_fails_all_pending (st st2 : TransportState)
    (parse : String → Option AgentMessage) (ev : LoopEvent)
    (hev : ev = .chan .eof ∨ ev = .chan .close ∨ ev = .chan .chanEnd ∨
        (∃ c, ev = .chan (.exitStatus c)) ∨ ev = .shutdown)
    (hdead : st2.alive = false) :
    (ioStep parse st ev).2 = false ∧
    (terminate st).alive = false ∧
    (terminate st).pending = [] ∧
    (terminate st).resolved.length = st.resolved.length + st.pending.length ∧
    (∀ i s, (i, s) ∈ st.pending →
        (s, Except.error chanClosedErr) ∈ (terminate st).resolved) ∧
    (∀ ser, callStart st2 ser = (st2, .failed .NotConnected)) := by
  refine ⟨?_, rfl, rfl, by simp [terminate], ?_, ?_⟩
  · rcases hev with rfl | rfl | rfl | ⟨c, rfl⟩ | rfl <;> rfl
  · intro i s hmem
    simp only [terminate, List.mem_append]
    exact Or.inr (List.mem_map.mpr ⟨(i, s), hmem, rfl⟩)
  · intro ser
    simp [callStart, hdead]

/-- C3 witness: EOF with two calls pending; both drained with the
channel-closed error; a call on the dead transport is refused. -/
theorem channel_close_fails_all_pending_witness :
    (ioStep (fun _ => none)
        { TransportState.initial with pending := [(1, 10), (2, 11)] }
        (.chan .eof)).2 = false ∧
    (terminate { TransportState.initial with pending := [(1, 10), (2, 11)] }).alive = false ∧
    (terminate { TransportState.initial with pending := [(1, 10), (2, 11)] }).pending = [] ∧
    (terminate { TransportState.initial with pending := [(1, 10), (2, 11)] }).resolved.length
        = ([] : List (Nat × RpcResult)).length + ([(1, 10), (2, 11)] : List (Nat × Nat)).length ∧
    (∀ i s, (i, s) ∈ ([(1, 10), (2, 11)] : List (Nat × Nat)) →
        (s, Except.error chanClosedErr) ∈
          (terminate { TransportState.initial with pending := [(1, 10), (2, 11)] }).resolved) ∧
    (∀ ser, callStart { TransportState.initial with alive := false } ser
        = ({ TransportState.initial with alive := false }, .failed .NotConnected)) :=
  channel_close_fails_all_pending
    { TransportState.initial with pending := [(1, 10), (2, 11)] }
    { TransportState.initial with alive := false }
    (fun _ => none) (.chan .eof) (Or.inl rfl) rfl

/-! ## C10 — serialize-failure atomicity -/

/-- C10: on a live transport, a request whose serialization fails returns
the serialize error before any pending entry is registered and before
anything is enqueued: pending map and outgoing queue are exactly as
before the call (only the id counter has advanced). -/
theorem serialize_error_is_atomic (st : TransportState) (emsg : String)
    (halive : st.alive = true) :
    callStart st (Except.error emsg)
        = ({ st with nextId := st.nextId + 1 }, .failed (.SerializeError emsg)) ∧
    (callStart st (Except.error emsg)).1.pending = st.pending ∧
    (callStart st (Except.error emsg)).1.outgoing = st.outgoing := by
  have h : callStart st (Except.error emsg)
      = ({ st with nextId := st.nextId + 1 }, .failed (.SerializeError emsg)) := by
    simp [callStart, halive]
  exact ⟨h, by rw [h], by rw [h]⟩

/-- C10 witness: a live transport with one pending call and one queued
line; a failing serialization leaves both untouched. -/
theorem serialize_error_is_atomic_witness :
    callStart
        { TransportState.initial with pending := [(5, 50)], outgoing := ["queued"] }
        (Except.error "key must be a string")
      = ({ { TransportState.initial with pending := [(5, 50)], outgoing := ["queued"] }
            with nextId :=
              ({ TransportState.initial with
                  pending := [(5, 50)], outgoing := ["queued"] } : TransportState).nextId + 1 },
         .failed (.SerializeError "key must be a string")) ∧
    (callStart
        { TransportState.initial with pending := [(5, 50)], outgoing := ["queued"] }
        (Except.error "key must be a string")).1.pending = [(5, 50)] ∧
    (callStart
        { TransportState.initial with pending := [(5, 50)], outgoing := ["queued"] }
        (Except.error "key must be a string")).1.outgoing = ["queued"] :=
  serialize_error_is_atomic
    { TransportState.initial with pending := [(5, 50)], outgoing := ["queued"] }
    "key must be a string" rfl

/-! ## C6 — the watch receiver is taken at most once -/

/-- No transport operation ever resets the `watch_taken` flag. -/
theorem applyTOp_preserves_watchTaken (st : TransportState) (op : TOp)
    (h : st.watchTaken = true) : (applyTOp st op).watchTaken = true := by
  cases op with
  | resp r =>
      simp only [applyTOp, handleResponse]
      split <;> simp [h]
  | notif n =>
      simp only [applyTOp, handleNotification]
      split
      · split <;> simp [sendWatch, h]
      · exact h
  | startCall ser =>
      simp only [applyTOp, callStart]
      split
      · exact h
      · split
        · simp [h]
        · split <;> simp [h]
  | finish id t a =>
      cases a with
      | completed r => cases r <;> simp [applyTOp, finishCall, h]
      | senderDropped => simp [applyTOp, finishCall, h]
      | timedOut => simp [applyTOp, finishCall, h]
  | term => simp [applyTOp, terminate, h]
  | takeRx =>
      simp only [applyTOp, takeWatchRx]
      split <;> simp [h]

/-- `watch_taken` stays set across any sequence of operations. -/
theorem foldl_preserves_watchTaken (ops : List TOp) (st : TransportState)
    (h : st.watchTaken = true) : (ops.foldl applyTOp st).watchTaken = true := by
  induction ops generalizing st with
  | nil => exact h
  | cons op t ih => exact ih _ (applyTOp_preserves_watchTaken st op h)

/-- C6: on a transport whose watch receiver has not been taken, the first
`take_watch_rx` returns `Some` (the live consumer); after it, under any
interleaving of further operations by any callers, every later
`take_watch_rx` returns `None`. -/
theorem take_watch_rx_exactly_once (st : TransportState)
    (h : st.watchTaken = false) :
    (takeWatchRx st).2 = some st.watchQueue ∧
    (∀ ops : List TOp,
        (takeWatchRx (ops.foldl applyTOp (takeWatchRx st).1)).2 = none) := by
  constructor
  · simp [takeWatchRx, h]
  · intro ops
    have h1 : (takeWatchRx st).1.watchTaken = true := by
      simp [takeWatchRx, h]
    have h2 := foldl_preserves_watchTaken ops _ h1
    generalize hg : List.foldl applyTOp (takeWatchRx st).1 ops = X at h2 ⊢
    simp [takeWatchRx, h2]

/-- C6 witness: a fresh transport; the first take succeeds, and after an
interleaving of a response, a new call and a second take, a further take
still returns `None`. -/
theorem take_watch_rx_exactly_once_witness :
    (takeWatchRx TransportState.initial).2 = some TransportState.initial.watchQueue ∧
    (∀ ops : List TOp,
        (takeWatchRx (ops.foldl applyTOp (takeWatchRx TransportState.initial).1)).2
          = none) :=
  take_watch_rx_exactly_once TransportState.initial rfl

/-! ## C7 — notifications arriving before the consumer is taken -/

/-- C7 counterexample: a `watch/event` notification handled before any
consumer has been taken is buffered, not dropped — the consumer taken
afterwards observes it; the claim that the consumer observes none of the
pre-takeover notifications fails on this input. -/
theorem pre_takeover_notification_observed :
    (takeWatchRx (handleNotification TransportState.initial
        ⟨"watch/event",
         Json.obj [("path", Json.str "/tmp/a"), ("kind", Json.str "modify")]⟩)).2
      = some [⟨"/tmp/a", "modify"⟩] ∧
    ¬ ([(⟨"/tmp/a", "modify"⟩ : WatchEvent)] = ([] : List WatchEvent)) := by
  exact ⟨rfl, by simp⟩

/-- Folding watch-event sends appends them, in order, to the buffered
queue without touching the `watch_taken` flag. -/
theorem foldl_sendWatch (evs : List WatchEvent) (st : TransportState) :
    evs.foldl sendWatch st = { st with watchQueue := st.watchQueue ++ evs } := by
  induction evs generalizing st with
  | nil => simp
  | cons e t ih => simp [List.foldl_cons, ih, sendWatch]

/-- C7 amended: a `watch/event` notification whose payload decodes is
forwarded into the watch channel even when no consumer has been taken;
such notifications are buffered (the bounded channel's sender suspends
rather than drops when full), and a consumer taken later observes exactly
the notifications that arrived before the takeover, in arrival order. -/
theorem pre_takeover_notifications_buffered (st : TransportState)
    (h1 : st.watchTaken = false) (h2 : st.watchQueue = []) :
    (∀ (st2 : TransportState) (n : AgentNotification) (ev : WatchEvent),
        n.method = "watch/event" → parseWatchEvent n.params = some ev →
        handleNotification st2 n = sendWatch st2 ev) ∧
    (∀ evs : List WatchEvent,
        (takeWatchRx (evs.foldl sendWatch st)).2 = some evs) := by
  constructor
  · intro st2 n ev hm hp
    simp [handleNotification, hm, hp]
  · intro evs
    rw [foldl_sendWatch, h2]
    simp [takeWatchRx, h1]

/-- C7 amended witness: two events buffered on a fresh transport are both
observed by the later consumer, in order. -/
theorem pre_takeover_notifications_buffered_witness :
    (∀ (st2 : TransportState) (n : AgentNotification) (ev : WatchEvent),
        n.method = "watch/event" → parseWatchEvent n.params = some ev →
        handleNotification st2 n = sendWatch st2 ev) ∧
    (∀ evs : List WatchEvent,
        (takeWatchRx (evs.foldl sendWatch TransportState.initial)).2 = some evs) :=
  pre_takeover_notifications_buffered TransportState.initial rfl rfl

/-! ## C9 — malformed lines are non-fatal -/

/-- Handling any single line never changes the `alive` flag. -/
theorem handleLine_alive (parse : String → Option AgentMessage)
    (st : TransportState) (line : String) :
    (handleLine parse st line).alive = st.alive := by
  simp only [handleLine]
  split
  · simp only [handleResponse]
    split <;> rfl
  · simp only [handleNotification]
    split
    · split <;> simp [sendWatch]
    · rfl
  · rfl

/-- Folding line handling never changes the `alive` flag. -/
theorem foldl_handleLine_alive (parse : String → Option AgentMessage)
    (lines : List String) (st : TransportState) :
    (lines.foldl (handleLine parse) st).alive = st.alive := by
  induction lines generalizing st with
  | nil => rfl
  | cons l t ih => rw [List.foldl_cons, ih, handleLine_alive]

/-- C9: a received line that fails to parse as a protocol message is
skipped — the state (pending map included) is unchanged and the read loop
moves on; processing any data chunk keeps the transport alive and the
loop running; and the loop terminates only on channel-level events —
write failure, exit status, EOF, close, channel end — or the shutdown
signal. -/
theorem malformed_lines_nonfatal (parse : String → Option AgentMessage)
    (st : TransportState) (line : String) (h : parse line = none) :
    handleLine parse st line = st ∧
    (∀ chunk, (ioStep parse st (.chan (.data chunk))).2 = true) ∧
    (∀ chunk, (processData parse st chunk).alive = st.alive) ∧
    (∀ ev : LoopEvent, (ioStep parse st ev).2 = false ↔
        (ev = .shutdown ∨ (∃ l, ev = .write l false) ∨ ev = .chan .eof ∨
         ev = .chan .close ∨ ev = .chan .chanEnd ∨
         ∃ c, ev = .chan (.exitStatus c))) := by
  refine ⟨by simp [handleLine, h], fun chunk => rfl, ?_, ?_⟩
  · intro chunk
    simp only [processData]
    rw [foldl_handleLine_alive]
  · intro ev
    cases ev with
    | write l ok => cases ok <;> simp [ioStep]
    | chan m => cases m <;> simp [ioStep]
    | shutdown => simp [ioStep]

/-- C9 witness: a parse function rejecting a stray stderr-style line; the
transport state survives it untouched and only channel-level events or
shutdown break the loop. -/
theorem malformed_lines_nonfatal_witness :
    handleLine (fun _ => none) TransportState.initial "[agent] booting..." = TransportState.initial ∧
    (∀ chunk, (ioStep (fun _ => none) TransportState.initial (.chan (.data chunk))).2 = true) ∧
    (∀ chunk, (processData (fun _ => none) TransportState.initial chunk).alive
        = TransportState.initial.alive) ∧
    (∀ ev : LoopEvent, (ioStep (fun _ => none) TransportState.initial ev).2 = false ↔
        (ev = .shutdown ∨ (∃ l, ev = .write l false) ∨ ev = .chan .eof ∨
         ev = .chan .close ∨ ev = .chan .chanEnd ∨
         ∃ c, ev = .chan (.exitStatus c))) :=
  malformed_lines_nonfatal (fun _ => none) TransportState.initial "[agent] booting..." rfl

/-! ## C8 — unsupported architecture is terminal -/

/-- C8: a detected architecture outside {x86_64, amd64, aarch64, arm64}
makes `deploy_and_start` return `UnsupportedArch` carrying that string,
having issued only the architecture probe: no binary resolution, no
mkdir/upload/chmod, no agent start. -/
theorem unsupported_arch_terminal (version out : String) (env : DeployEnv)
    (hu : env.uname = Except.ok out)
    (hne : ¬ strTrim out = "")
    (h1 : ¬ strTrim out = "x86_64") (h2 : ¬ strTrim out = "amd64")
    (h3 : ¬ strTrim out = "aarch64") (h4 : ¬ strTrim out = "arm64") :
    deployAndStart version env
      = ([.detectArch], .error (.UnsupportedArch (strTrim out))) := by
  simp [deployAndStart, hu, hne, archToTarget, h1, h2, h3, h4]

/-- C8 witness: a `riscv64` host. -/
theorem unsupported_arch_terminal_witness :
    deployAndStart "1.4.0"
        { uname := Except.ok "riscv64", resourceResolve := Except.ok "/res/agent",
          resourceExists := true, probe := Except.ok "", mkdirRes := Except.ok "",
          readLocal := Except.ok [], uploadRes := Except.ok (), chmodRes := Except.ok "",
          startRes := Except.ok (), pingRes := Except.ok Json.null,
          infoRes := Except.ok Json.null }
      = ([.detectArch], .error (.UnsupportedArch (strTrim "riscv64"))) :=
  unsupported_arch_terminal "1.4.0" "riscv64"
    { uname := Except.ok "riscv64", resourceResolve := Except.ok "/res/agent",
      resourceExists := true, probe := Except.ok "", mkdirRes := Except.ok "",
      readLocal := Except.ok [], uploadRes := Except.ok (), chmodRes := Except.ok "",
      startRes := Except.ok (), pingRes := Except.ok Json.null,
      infoRes := Except.ok Json.null }
    rfl (by decide) (by decide) (by decide) (by decide) (by decide)

/-! ## C5 — the two deployment scenarios -/

/-- C5: (a) when the version probe's stdout is exactly the local version,
no upload command (mkdir, SFTP upload, chmod) is issued and the trace
goes straight from the probe to the agent start; (b) when the probe
returns empty output, the issued operations are exactly, in order:
mkdir -p, SFTP upload of the binary bytes, chmod +x, agent start,
`sys/ping`, `sys/info`, and the identity returned to the caller is the
value deserialized from the `sys/info` response JSON. -/
theorem deploy_probe_scenarios (version : String) (env1 env2 : DeployEnv)
    (out1 target1 lp1 pv : String)
    (ha1 : env1.uname = Except.ok out1)
    (ha2 : archToTarget (strTrim out1) = Except.ok target1)
    (ha3 : env1.resourceResolve = Except.ok lp1)
    (ha4 : env1.resourceExists = true)
    (ha5 : env1.probe = Except.ok pv)
    (ha6 : strTrim pv = version)
    (hv1 : ¬ version = "")
    (hv2 : strContains version "NOT_FOUND" = false)
    (out2 target2 lp2 p2 mo co : String) (bytes : List Nat)
    (pong iv : Json) (info : SysInfoResult)
    (hb1 : env2.uname = Except.ok out2)
    (hb2 : archToTarget (strTrim out2) = Except.ok target2)
    (hb3 : env2.resourceResolve = Except.ok lp2)
    (hb4 : env2.resourceExists = true)
    (hb5 : env2.probe = Except.ok p2)
    (hb6 : strTrim p2 = "")
    (hb7 : env2.mkdirRes = Except.ok mo)
    (hb8 : env2.readLocal = Except.ok bytes)
    (hb9 : env2.uploadRes = Except.ok ())
    (hb10 : env2.chmodRes = Except.ok co)
    (hb11 : env2.startRes = Except.ok ())
    (hb12 : env2.pingRes = Except.ok pong)
    (hb13 : env2.infoRes = Except.ok iv)
    (hb14 : fromJsonSysInfo iv = some info) :
    needsUpload env1.probe version = false ∧
    (deployAndStart version env1).1
      = [.detectArch, .resolveBinary ("agents/oxideterm-agent-" ++ target1),
         .versionProbe remotePath] ++ (startPhase env1).1 ∧
    (∃ rest, (startPhase env1).1 = .startAgent remotePath :: rest) ∧
    (deployAndStart version env1).2 = (startPhase env1).2 ∧
    deployAndStart version env2
      = ([.detectArch, .resolveBinary ("agents/oxideterm-agent-" ++ target2),
          .versionProbe remotePath, .mkdir remoteDir, .readLocalBinary,
          .upload remotePath bytes, .chmod remotePath, .startAgent remotePath,
          .rpcCall "sys/ping", .rpcCall "sys/info"], .ok info) := by
  have hne1 : ¬ strTrim out1 = "" := by
    intro he
    rw [he] at ha2
    simp [archToTarget] at ha2
  have hne2 : ¬ strTrim out2 = "" := by
    intro he
    rw [he] at hb2
    simp [archToTarget] at hb2
  have hnu1 : needsUpload env1.probe version = false := by
    rw [ha5]
    simp [needsUpload, ha6, hv1, hv2, strContains_self]
  have hnu2 : needsUpload env2.probe version = true := by
    rw [hb5]
    simp [needsUpload, hb6]
  refine ⟨hnu1, ?_, ?_, ?_, ?_⟩
  · simp [deployAndStart, ha1, hne1, ha2, ha3, ha4, hnu1]
  · cases hs : env1.startRes with
    | error e => exact ⟨[], by simp [startPhase, hs]⟩
    | ok u =>
        cases hp : env1.pingRes with
        | error e => exact ⟨[.rpcCall "sys/ping"], by simp [startPhase, hs, hp]⟩
        | ok v =>
            cases hi : env1.infoRes with
            | error e =>
                exact ⟨[.rpcCall "sys/ping", .rpcCall "sys/info"],
                  by simp [startPhase, hs, hp, hi]⟩
            | ok v2 =>
                cases hf : fromJsonSysInfo v2 with
                | none =>
                    exact ⟨[.rpcCall "sys/ping", .rpcCall "sys/info"],
                      by simp [startPhase, hs, hp, hi, hf]⟩
                | some i2 =>
                    exact ⟨[.rpcCall "sys/ping", .rpcCall "sys/info"],
                      by simp [startPhase, hs, hp, hi, hf]⟩
  · simp [deployAndStart, ha1, hne1, ha2, ha3, ha4, hnu1]
  · have hstart : startPhase env2
        = ([.startAgent remotePath, .rpcCall "sys/ping", .rpcCall "sys/info"],
           .ok info) := by
      simp [startPhase, hb11, hb12, hb13, hb14]
    have hupload : uploadPhase env2
        = ([.mkdir remoteDir, .readLocalBinary, .upload remotePath bytes,
            .chmod remotePath], .ok ()) := by
      simp [uploadPhase, hb7, hb8, hb9, hb10]
    simp [deployAndStart, hb1, hne2, hb2, hb3, hb4, hnu2, hupload, hstart]

/-- C5 witness: version `1.4.0`; environment (a) probes exactly `1.4.0`;
environment (b) probes empty output, uploads a 3-byte binary, and the
`sys/info` response JSON gives version `1.4.0`, arch `x86_64-linux-musl`,
pid `4242`. -/
theorem deploy_probe_scenarios_witness :
    needsUpload (DeployEnv.probe
        { uname := Except.ok "x86_64", resourceResolve := Except.ok "/res/agent",
          resourceExists := true, probe := Except.ok "1.4.0",
          mkdirRes := Except.ok "", readLocal := Except.ok [1, 2, 3],
          uploadRes := Except.ok (), chmodRes := Except.ok "",
          startRes := Except.ok (), pingRes := Except.ok (Json.str "pong"),
          infoRes := Except.ok (Json.obj
            [("version", Json.str "1.4.0"), ("arch", Json.str "x86_64-linux-musl"),
             ("os", Json.str "linux"), ("pid", Json.num 4242)]) }) "1.4.0" = false ∧
    (deployAndStart "1.4.0"
        { uname := Except.ok "x86_64", resourceResolve := Except.ok "/res/agent",
          resourceExists := true, probe := Except.ok "1.4.0",
          mkdirRes := Except.ok "", readLocal := Except.ok [1, 2, 3],
          uploadRes := Except.ok (), chmodRes := Except.ok "",
          startRes := Except.ok (), pingRes := Except.ok (Json.str "pong"),
          infoRes := Except.ok (Json.obj
            [("version", Json.str "1.4.0"), ("arch", Json.str "x86_64-linux-musl"),
             ("os", Json.str "linux"), ("pid", Json.num 4242)]) }).1
      = [.detectArch, .resolveBinary ("agents/oxideterm-agent-" ++ "x86_64-linux-musl"),
         .versionProbe remotePath] ++ (startPhase
        { uname := Except.ok "x86_64", resourceResolve := Except.ok "/res/agent",
          resourceExists := true, probe := Except.ok "1.4.0",
          mkdirRes := Except.ok "", readLocal := Except.ok [1, 2, 3],
          uploadRes := Except.ok (), chmodRes := Except.ok "",
          startRes := Except.ok (), pingRes := Except.ok (Json.str "pong"),
          infoRes := Except.ok (Json.obj
            [("version", Json.str "1.4.0"), ("arch", Json.str "x86_64-linux-musl"),
             ("os", Json.str "linux"), ("pid", Json.num 4242)]) }).1 ∧
    (∃ rest, (startPhase
        { uname := Except.ok "x86_64", resourceResolve := Except.ok "/res/agent",
          resourceExists := true, probe := Except.ok "1.4.0",
          mkdirRes := Except.ok "", readLocal := Except.ok [1, 2, 3],
          uploadRes := Except.ok (), chmodRes := Except.ok "",
          startRes := Except.ok (), pingRes := Except.ok (Json.str "pong"),
          infoRes := Except.ok (Json.obj
            [("version", Json.str "1.4.0"), ("arch", Json.str "x86_64-linux-musl"),
             ("os", Json.str "linux"), ("pid", Json.num 4242)]) }).1
        = .startAgent remotePath :: rest) ∧
    (deployAndStart "1.4.0"
        { uname := Except.ok "x86_64", resourceResolve := Except.ok "/res/agent",
          resourceExists := true, probe := Except.ok "1.4.0",
          mkdirRes := Except.ok "", readLocal := Except.ok [1, 2, 3],
          uploadRes := Except.ok (), chmodRes := Except.ok "",
          startRes := Except.ok (), pingRes := Except.ok (Json.str "pong"),
          infoRes := Except.ok (Json.obj
            [("version", Json.str "1.4.0"), ("arch", Json.str "x86_64-linux-musl"),
             ("os", Json.str "linux"), ("pid", Json.num 4242)]) }).2
      = (startPhase
        { uname := Except.ok "x86_64", resourceResolve := Except.ok "/res/agent",
          resourceExists := true, probe := Except.ok "1.4.0",
          mkdirRes := Except.ok "", readLocal := Except.ok [1, 2, 3],
          uploadRes := Except.ok (), chmodRes := Except.ok "",
          startRes := Except.ok (), pingRes := Except.ok (Json.str "pong"),
          infoRes := Except.ok (Json.obj
            [("version", Json.str "1.4.0"), ("arch", Json.str "x86_64-linux-musl"),
             ("os", Json.str "linux"), ("pid", Json.num 4242)]) }).2 ∧
    deployAndStart "1.4.0"
        { uname := Except.ok "aarch64", resourceResolve := Except.ok "/res/agent",
          resourceExists := true, probe := Except.ok "",
          mkdirRes := Except.ok "", readLocal := Except.ok [1, 2, 3],
          uploadRes := Except.ok (), chmodRes := Except.ok "",
          startRes := Except.ok (), pingRes := Except.ok (Json.str "pong"),
          infoRes := Except.ok (Json.obj
            [("version", Json.str "1.4.0"), ("arch", Json.str "x86_64-linux-musl"),
             ("os", Json.str "linux"), ("pid", Json.num 4242)]) }
      = ([.detectArch, .resolveBinary ("agents/oxideterm-agent-" ++ "aarch64-linux-musl"),
          .versionProbe remotePath, .mkdir remoteDir, .readLocalBinary,
          .upload remotePath [1, 2, 3], .chmod remotePath, .startAgent remotePath,
          .rpcCall "sys/ping", .rpcCall "sys/info"],
         .ok ⟨"1.4.0", "x86_64-linux-musl", "linux", 4242⟩) :=
  deploy_probe_scenarios "1.4.0" _ _ "x86_64" "x86_64-linux-musl" "/res/agent" "1.4.0"
    rfl rfl rfl rfl rfl (by decide) (by decide) (by decide)
    "aarch64" "aarch64-linux-musl" "/res/agent" "" "" "" [1, 2, 3]
    (Json.str "pong")
    (Json.obj [("version", Json.str "1.4.0"), ("arch", Json.str "x86_64-linux-musl"),
               ("os", Json.str "linux"), ("pid", Json.num 4242)])
    ⟨"1.4.0", "x86_64-linux-musl", "linux", 4242⟩
    rfl rfl rfl rfl rfl (by decide) rfl rfl rfl rfl rfl rfl rfl rfl
